import Mathlib

/-!
Shallow embedding of the core of the gmail-mcp-server repository:

* the shared error taxonomy and retry wrapper (`src/utils/errors.ts`),
* the IMAP mailbox client (`src/email/imap-client.ts`): UID selection,
  per-message parsing (`parseEmail`), batch processing of `listEmails`,
  `getEmail` and `searchEmails`,
* the SMTP transmission client (`src/email/smtp-client.ts`): `sendEmail`
  validation and submission, `replyEmail` subject / references / destination
  computation,
* the scheduler (`src/scheduler.ts`): `timeToCronExpression` and
  `setupScheduler` registration.

JavaScript-specific behaviours (string falsiness of `""`, `x || y`
defaulting, `Array.prototype.slice`, `String.prototype.split`,
`filter(Boolean)`, `Number(...)` coercion on time components) are embedded
as explicit small functions so that each translated definition can be
diffed line by line against the TypeScript source.  Network and protocol
effects are abstracted as explicit function parameters (a fetch oracle for
IMAP, a submission oracle for SMTP); sleeps performed by the retry wrapper
and the number of submission attempts are returned as data so that timing
and "no network interaction happened" statements become provable.
-/

/-! ## JavaScript string and truthiness primitives -/

/-- JS `a || d` where `a` is a possibly-undefined string and the result is
a string: returns `d` when `a` is `undefined` or the (falsy) empty string. -/
def jsOrD (a : Option String) (d : String) : String :=
  match a with
  | some s => if s = "" then d else s
  | none => d

/-- JS `s || undefined`: collapses the falsy empty string to `undefined`. -/
def jsOrNone (a : Option String) : Option String :=
  match a with
  | some s => if s = "" then none else some s
  | none => none

/-- JS `a || b` on two possibly-undefined strings. -/
def jsOrOpt (a b : Option String) : Option String :=
  match a with
  | some s => if s = "" then b else some s
  | none => b

/-- JS `s.startsWith(p)`, computed on the character lists so that it
evaluates inside the kernel. -/
def strStartsWith (s p : String) : Bool :=
  s.toList.take p.toList.length == p.toList

/-- Split a character list at every occurrence of `c`; the JS
`"".split(c)` convention is kept: the empty string yields one empty chunk. -/
def splitOnChar (c : Char) : List Char → List (List Char)
  | [] => [[]]
  | x :: xs =>
    let r := splitOnChar c xs
    if x = c then [] :: r
    else
      match r with
      | [] => [[x]]
      | h :: t => (x :: h) :: t

/-- JS `time.split(':')`. -/
def jsSplitColon (s : String) : List String :=
  (splitOnChar ':' s.toList).map String.mk

/-- Whitespace recognised by JS `String.prototype.trim` (the forms relevant
to schedule-time strings). -/
def isJsSpace (c : Char) : Bool :=
  c = ' ' || c = '\t' || c = '\n' || c = '\r'

/-- JS `s.trim()`. -/
def jsTrim (s : String) : String :=
  String.mk (((s.toList.dropWhile isJsSpace).reverse.dropWhile isJsSpace).reverse)

/-- Value of a non-empty all-digit character list, `none` otherwise. -/
def digitsVal (l : List Char) : Option Nat :=
  if l = [] then none
  else
    l.foldl
      (fun acc c =>
        match acc with
        | none => none
        | some n => if c.isDigit then some (n * 10 + (c.toNat - 48)) else none)
      (some 0)

/-- JS `Number(s)` restricted to the optionally-signed integer literal forms
that schedule-time components can take; every other form is treated as NaN
(`none`).  `Number("")` is `0` and `Number(undefined)` is NaN, both handled
at the call sites. -/
def jsNumber (s : String) : Option Int :=
  let cs := (jsTrim s).toList
  if cs = [] then some 0
  else if cs.head? = some '-' then (digitsVal cs.tail).map (fun n => -(n : Int))
  else if cs.head? = some '+' then (digitsVal cs.tail).map (fun n => (n : Int))
  else (digitsVal cs).map (fun n => (n : Int))

/-- JS `xs.slice(start, stop)` for non-negative indices. -/
def jsSlice (xs : List α) (start stop : Nat) : List α :=
  (xs.drop start).take (stop - start)

/-! ## Error taxonomy (`src/utils/errors.ts`)

`GmailMCPError(message, code, statusCode?, retryable = false)` is the base
class; `RateLimitError` is the only subclass constructed with
`retryable = true` and is also the only one tested with `instanceof
RateLimitError`.  Errors thrown by collaborators that are not
`GmailMCPError` instances are `jsThrown`; `undefinedValue` models the JS
`throw lastError!` on the (unreachable for `maxRetries ≥ 1`) fall-through
path. -/

inductive JsError where
  | rateLimitError
  | gmailError (message code : String) (retryable : Bool)
  | jsThrown
  | undefinedValue
deriving DecidableEq, Repr

/-- JS `error instanceof RateLimitError`. -/
def isRateLimitInstance : JsError → Bool
  | .rateLimitError => true
  | _ => false

/-- JS `error instanceof GmailMCPError` (`RateLimitError` is a subclass). -/
def isGmailMCPInstance : JsError → Bool
  | .rateLimitError => true
  | .gmailError _ _ _ => true
  | _ => false

/-- The `retryable` field read by `withRetry`; `RateLimitError` sets it to
`true`, and on a non-`GmailMCPError` value the field is never consulted. -/
def jsRetryable : JsError → Bool
  | .rateLimitError => true
  | .gmailError _ _ r => r
  | _ => false

/-! ## Retry wrapper (`withRetry`, src/utils/errors.ts lines 360-393)

The wrapped operation is modelled as a function from the attempt index to
its outcome.  The result carries, besides the final outcome, the list of
sleep durations (in order) and the number of times the operation was
invoked, so that backoff schedules and attempt consumption are provable. -/

def withRetryGo (fn : Nat → Except JsError α) (maxRetries delayMs : Nat) :
    Nat → Nat → Option JsError → List Nat → Nat →
    Except JsError α × List Nat × Nat
  | _, 0, lastError, sleeps, calls =>
    (Except.error (lastError.getD JsError.undefinedValue), sleeps, calls)
  | attempt, fuel + 1, _, sleeps, calls =>
    match fn attempt with
    | Except.ok a => (Except.ok a, sleeps, calls + 1)
    | Except.error e =>
      if isRateLimitInstance e && decide (attempt < maxRetries - 1) then
        withRetryGo fn maxRetries delayMs (attempt + 1) fuel (some e)
          (sleeps ++ [delayMs * 2 ^ attempt]) (calls + 1)
      else if isGmailMCPInstance e && !jsRetryable e then
        (Except.error e, sleeps, calls + 1)
      else if attempt = maxRetries - 1 then
        (Except.error e, sleeps, calls + 1)
      else
        withRetryGo fn maxRetries delayMs (attempt + 1) fuel (some e)
          (sleeps ++ [delayMs * (attempt + 1)]) (calls + 1)

/-- `withRetry(fn, maxRetries = 3, delayMs = 1000)`: the `for` loop runs
`attempt` from `0` while `attempt < maxRetries`, so the remaining fuel at
entry is `maxRetries`. -/
def withRetry (fn : Nat → Except JsError α) (maxRetries delayMs : Nat) :
    Except JsError α × List Nat × Nat :=
  withRetryGo fn maxRetries delayMs 0 maxRetries none [] 0

/-- Default `maxRetries` of `withRetry`. -/
def defaultMaxRetries : Nat := 3

/-- Default `delayMs` of `withRetry`. -/
def defaultDelayMs : Nat := 1000

/-! ## Mailbox data model (`src/email/types.ts`) and parsing
(`parseEmail`, src/email/imap-client.ts lines 313-372)

`mailparser` address fields arrive either as a single address object or as
an array of them (`AddrField`); header values arrive as one string or many;
dates are abstracted to timestamps. -/

structure EmailAddress where
  name : Option String
  address : String
deriving DecidableEq, Repr

/-- A `mailparser` address field: a single address object or an array. -/
inductive AddrField where
  | one (a : EmailAddress)
  | many (l : List EmailAddress)
deriving DecidableEq, Repr

structure RawAttachment where
  filename : Option String
  contentType : Option String
  size : Option Nat
  contentId : Option String
  checksum : Option String
deriving DecidableEq, Repr

structure EmailAttachment where
  filename : String
  contentType : String
  size : Nat
  contentId : Option String
  checksum : Option String
deriving DecidableEq, Repr

/-- A raw header value from the `parsed.headers` map: one string or many. -/
inductive HeaderValue where
  | one (s : String)
  | many (l : List String)
deriving DecidableEq, Repr

/-- The `ParsedMail` record produced by `simpleParser`, restricted to the
fields `parseEmail` reads.  `fromAddr` stands for the `from` field (`from`
is a Lean keyword). -/
structure ParsedMail where
  messageId : Option String
  subject : Option String
  fromAddr : Option AddrField
  toField : Option AddrField
  cc : Option AddrField
  bcc : Option AddrField
  replyTo : Option AddrField
  date : Option Nat
  text : Option String
  html : Option String
  attachments : Option (List RawAttachment)
  headers : List (String × HeaderValue)
  inReplyTo : Option String
  references : Option (List String)
deriving DecidableEq, Repr

/-- The `EmailMessage` entity of `src/email/types.ts` (read side).
`bodyText` / `bodyHtml` flatten the nested `body` record; `fromAddr`
stands for `from` and `toField` for `to` (both Lean keywords). -/
structure EmailMessage where
  uid : Nat
  messageId : Option String
  subject : Option String
  fromAddr : Option EmailAddress
  toField : Option (List EmailAddress)
  cc : Option (List EmailAddress)
  bcc : Option (List EmailAddress)
  replyTo : Option (List EmailAddress)
  date : Option Nat
  flags : List String
  unread : Bool
  bodyText : Option String
  bodyHtml : Option String
  attachments : Option (List EmailAttachment)
  headers : List (String × List String)
  threadId : Option String
deriving DecidableEq, Repr

/-- `parseAddress` of `parseEmail`: an array takes its first element (or
`undefined` when empty), a single object is passed through. -/
def parseAddress : Option AddrField → Option EmailAddress
  | none => none
  | some (.one a) => some a
  | some (.many []) => none
  | some (.many (a :: _)) => some a

/-- `parseAddresses` of `parseEmail`: a single object is wrapped into a
one-element array. -/
def parseAddresses : Option AddrField → Option (List EmailAddress)
  | none => none
  | some (.one a) => some [a]
  | some (.many l) => some l

/-- Attachment mapping of `parseEmail`: `att.filename || 'unnamed'`,
`att.contentType || 'application/octet-stream'`, `att.size || 0`. -/
def parseAttachment (att : RawAttachment) : EmailAttachment :=
  { filename := jsOrD att.filename "unnamed"
    contentType := jsOrD att.contentType "application/octet-stream"
    size := att.size.getD 0
    contentId := att.contentId
    checksum := att.checksum }

/-- Header normalisation of `parseEmail`:
`Array.isArray(value) ? value : [value]`. -/
def headerValueList : HeaderValue → List String
  | .one s => [s]
  | .many l => l

/-- `parseEmail(parsed, uid, flags)` (src/email/imap-client.ts 313-372).
`unread` is computed as `!flags.includes('\\Seen')`; `threadId` as
`parsed.inReplyTo || parsed.references?.[0]`; empty attachment lists
collapse to `undefined`. -/
def parseEmail (parsed : ParsedMail) (uid : Nat) (flags : List String) :
    EmailMessage :=
  { uid := uid
    messageId := parsed.messageId
    subject := parsed.subject
    fromAddr := parseAddress parsed.fromAddr
    toField := parseAddresses parsed.toField
    cc := parseAddresses parsed.cc
    bcc := parseAddresses parsed.bcc
    replyTo := parseAddresses parsed.replyTo
    date := parsed.date
    flags := flags
    unread := !(flags.contains "\\Seen")
    bodyText := jsOrNone parsed.text
    bodyHtml := jsOrNone parsed.html
    attachments :=
      match parsed.attachments.map (List.map parseAttachment) with
      | some l => if 0 < l.length then some l else none
      | none => none
    headers := parsed.headers.map (fun kv => (kv.1, headerValueList kv.2))
    threadId := jsOrOpt parsed.inReplyTo (parsed.references.bind List.head?) }

/-! ## Batch fetch and parse (`listEmails`, src/email/imap-client.ts 113-207)

One fetched message is a `RawMsg`: the UID reported by the `attributes`
event (`none` when the event never fired), the flags, and the outcome of
`simpleParser` (`none` when parsing threw).  `processMessages` is the
per-message `end` handler run over the fetched messages in arrival order:
a message without a UID is skipped silently, a message whose parse failed
is skipped and its UID logged (`console.error`), a parsed message is
pushed.  The whole batch always produces a result list. -/

structure RawMsg where
  uid : Option Nat
  flags : List String
  parsed : Option ParsedMail
deriving DecidableEq, Repr

/-- Process fetched messages in arrival order; returns the accumulated
emails and the UIDs whose parse failure was logged. -/
def processMessages : List RawMsg → List EmailMessage × List Nat
  | [] => ([], [])
  | r :: rs =>
    let rest := processMessages rs
    match r.uid with
    | none => rest
    | some u =>
      match r.parsed with
      | some pm => (parseEmail pm u r.flags :: rest.1, rest.2)
      | none => (rest.1, u :: rest.2)

/-- `listEmails({limit, offset, searchCriteria, mailbox})`: the server's
matching UIDs are `results`; the fetch-and-parse of one UID is the oracle
`fetch`.  Mirrors the source: empty search results resolve to `[]`; the
UID window is `results.reverse().slice(offset, offset + limit)`; an empty
window resolves to `[]`; otherwise every selected UID is fetched and the
messages are processed in order. -/
def listEmails (results : List Nat) (offset limit : Nat)
    (fetch : Nat → RawMsg) : List EmailMessage × List Nat :=
  if results.length = 0 then ([], [])
  else
    let uids := jsSlice results.reverse offset (offset + limit)
    if uids.length = 0 then ([], [])
    else processMessages (uids.map fetch)

/-- `getEmail(uid, mailbox)`: fetches exactly one UID; a parse failure
rejects with a protocol error (the dynamic detail of the thrown message is
not modelled).  The `uid` passed to `parseEmail` is the requested one, as
in the source. -/
def getEmail (uid : Nat) (raw : RawMsg) : Except JsError EmailMessage :=
  match raw.parsed with
  | some pm => Except.ok (parseEmail pm uid raw.flags)
  | none => Except.error (JsError.gmailError "Error parsing email" "IMAP_ERROR" false)

/-- `searchEmails({criteria, mailbox, limit})` delegates to `listEmails`
with no `offset`, which therefore defaults to `0`. -/
def searchEmails (results : List Nat) (limit : Nat)
    (fetch : Nat → RawMsg) : List EmailMessage × List Nat :=
  listEmails results 0 limit fetch

/-! ## Transmission client (`src/email/smtp-client.ts`)

`SendEmailOptions.to/cc/bcc/replyTo/references` are `string | string[]`
(`StrOrList`); optional ones are wrapped in `Option`.  The SMTP submission
(`transporter.sendMail` together with its error wrapping) is abstracted as
an oracle from the composed mail options and the attempt index to an
outcome.  `sendEmail` returns the outcome, the retry sleeps and the number
of submission attempts actually made. -/

inductive StrOrList where
  | str (s : String)
  | list (l : List String)
deriving DecidableEq, Repr

/-- JS truthiness of a `string | string[]` value: `""` is falsy, every
array (even empty) is truthy. -/
def jsTruthyStrOrList : StrOrList → Bool
  | .str s => s != ""
  | .list _ => true

/-- JS truthiness of an optional string: `undefined` and `""` are falsy. -/
def jsTruthyOptStr : Option String → Bool
  | some s => s != ""
  | none => false

/-- `Array.isArray(x) ? x : [x]`. -/
def toArrayJs : StrOrList → List String
  | .str s => [s]
  | .list l => l

/-- `x ? (Array.isArray(x) ? x : [x]) : undefined` as used for the
`cc`/`bcc`/`replyTo`/`references` fields. -/
def jsOptArray : Option StrOrList → Option (List String)
  | some v => if jsTruthyStrOrList v then some (toArrayJs v) else none
  | none => none

structure SendAttachment where
  filename : String
  path : Option String
  content : Option String
  contentType : Option String
deriving DecidableEq, Repr

/-- `SendEmailOptions` (src/email/types.ts): `toField` stands for `to`. -/
structure SendOpts where
  toField : StrOrList
  subject : String
  body : Option String
  htmlBody : Option String
  cc : Option StrOrList
  bcc : Option StrOrList
  replyTo : Option StrOrList
  attachments : Option (List SendAttachment)
  inReplyTo : Option String
  references : Option StrOrList
deriving DecidableEq, Repr

/-- The `nodemailer` mail options composed inside `sendEmail`;
`fromAddr`/`toField` stand for `from`/`to`. -/
structure MailOptions where
  fromAddr : String
  toField : List String
  subject : String
  text : Option String
  html : Option String
  cc : Option (List String)
  bcc : Option (List String)
  replyTo : Option (List String)
  inReplyTo : Option String
  references : Option String
  attachments : Option (List SendAttachment)
deriving DecidableEq, Repr

/-- Mail-option composition of `sendEmail` (src/email/smtp-client.ts
79-105): singular-or-plural fields are normalised to arrays, and
`references` becomes `referencesArray?.join(' ')`. -/
def buildMailOptions (user : String) (opts : SendOpts) : MailOptions :=
  { fromAddr := user
    toField := toArrayJs opts.toField
    subject := opts.subject
    text := opts.body
    html := opts.htmlBody
    cc := jsOptArray opts.cc
    bcc := jsOptArray opts.bcc
    replyTo := jsOptArray opts.replyTo
    inReplyTo := opts.inReplyTo
    references := (jsOptArray opts.references).map (String.intercalate " ")
    attachments := opts.attachments }

/-- `sendEmail(options)` (src/email/smtp-client.ts 61-115): the validation
`if (!to || !subject || (!body && !htmlBody)) throw` runs before the
`withRetry`-wrapped submission, so a validation failure returns with an
empty sleep list and zero submission attempts. -/
def sendEmail (user : String) (opts : SendOpts)
    (submit : MailOptions → Nat → Except JsError String) :
    Except JsError String × List Nat × Nat :=
  if !jsTruthyStrOrList opts.toField || opts.subject == ""
      || (!jsTruthyOptStr opts.body && !jsTruthyOptStr opts.htmlBody) then
    (Except.error (JsError.gmailError
        "to, subject, and body (or htmlBody) are required" "VALIDATION_ERROR" false),
      [], 0)
  else
    withRetry (fun attempt => submit (buildMailOptions user opts) attempt) 3 1000

/-! ## Reply composition (`replyEmail`, src/email/smtp-client.ts 120-156) -/

/-- `originalEmail.subject?.startsWith('Re:')`: optional chaining makes an
absent subject read as `undefined`, which is falsy. -/
def optStartsRe : Option String → Bool
  | some s => strStartsWith s "Re:"
  | none => false

/-- Reply subject (src/email/smtp-client.ts 138-140):
`replySubject.startsWith('Re:') || originalEmail.subject?.startsWith('Re:')
? replySubject : 'Re: ' + (originalEmail.subject || replySubject)`. -/
def replySubjectCalc (replySubject : String) (osubj : Option String) : String :=
  if strStartsWith replySubject "Re:" || optStartsRe osubj then replySubject
  else "Re: " ++ jsOrD osubj replySubject

/-- JS `filter(Boolean)` over `[...references, messageId]`: drops
`undefined` entries and falsy empty strings. -/
def jsFilterBoolean (l : List (Option String)) : List String :=
  l.filterMap (fun o =>
    match o with
    | some s => if s = "" then none else some s
    | none => none)

/-- Reply references (src/email/smtp-client.ts 142-144):
`originalEmail.references ? [...originalEmail.references,
originalEmail.messageId].filter(Boolean).join(' ') :
originalEmail.messageId`.  An array (even empty) is truthy. -/
def replyReferencesCalc (orefs : Option (List String)) (omid : Option String) :
    Option String :=
  match orefs with
  | some refs =>
    some (String.intercalate " " (jsFilterBoolean (refs.map some ++ [omid])))
  | none => omid

/-- The `originalEmail` context handed to `replyEmail` by the reply tool. -/
structure OriginalEmail where
  fromAddr : Option EmailAddress
  subject : Option String
  messageId : Option String
  references : Option (List String)
deriving DecidableEq, Repr

/-- `replyEmail(options, originalEmail)` (src/email/smtp-client.ts
120-156): after its own body validation it composes subject, references
and destination (`originalEmail.from?.address || ''`) and delegates to
`sendEmail`. -/
def replyEmail (user : String) (replySubject : String)
    (body htmlBody : Option String) (cc bcc : Option StrOrList)
    (orig : OriginalEmail)
    (submit : MailOptions → Nat → Except JsError String) :
    Except JsError String × List Nat × Nat :=
  if !jsTruthyOptStr body && !jsTruthyOptStr htmlBody then
    (Except.error (JsError.gmailError
        "Either body or htmlBody must be provided" "VALIDATION_ERROR" false),
      [], 0)
  else
    sendEmail user
      { toField := StrOrList.str (jsOrD (orig.fromAddr.map EmailAddress.address) "")
        subject := replySubjectCalc replySubject orig.subject
        body := body
        htmlBody := htmlBody
        cc := cc
        bcc := bcc
        replyTo := none
        attachments := none
        inReplyTo := orig.messageId
        references := (replyReferencesCalc orig.references orig.messageId).map StrOrList.str }
      submit

/-! ## Scheduler (`src/scheduler.ts`)

`cron.schedule` on a well-formed cron expression is modelled as always
registering (timezone handling is outside the embedding); a registered
task is represented by its cron expression. -/

/-- `timeToCronExpression(time)` (src/scheduler.ts 18-24): splits on `':'`,
coerces both parts with `Number` (a missing part destructures to
`undefined`, i.e. NaN), rejects NaN or out-of-range values with the
descriptive error, and otherwise renders `minutes hours * * *`. -/
def timeToCronExpression (time : String) : Except String String :=
  let parts := jsSplitColon time
  let h? : Option Int := (parts.get? 0).bind jsNumber
  let m? : Option Int := (parts.get? 1).bind jsNumber
  match h?, m? with
  | some h, some m =>
    if h < 0 || h > 23 || m < 0 || m > 59 then
      Except.error ("Invalid time format: " ++ time ++ ". Expected format: HH:mm")
    else
      Except.ok (toString m ++ " " ++ toString h ++ " * * *")
  | _, _ =>
    Except.error ("Invalid time format: " ++ time ++ ". Expected format: HH:mm")

/-- The `for (const time of config.times)` registration loop of
`setupScheduler` (src/scheduler.ts 99-114): each entry is trimmed and
converted inside a `try`; on success the task is registered, on failure
the error is logged against that entry and the loop continues. -/
def registerTimes : List String → List String × List (String × String)
  | [] => ([], [])
  | t :: ts =>
    let rest := registerTimes ts
    match timeToCronExpression (jsTrim t) with
    | Except.ok expr => (expr :: rest.1, rest.2)
    | Except.error msg => (rest.1, (t, msg) :: rest.2)

/-- `setupScheduler(imapClient, config)` (src/scheduler.ts 82-117),
restricted to registration: disabled scheduling or an empty time list
registers nothing; otherwise every entry is processed independently.
Returns the registered cron expressions and the per-entry failures. -/
def setupScheduler (enabled : Bool) (times : List String) :
    List String × List (String × String) :=
  if !enabled then ([], [])
  else if times.length = 0 then ([], [])
  else registerTimes times

/-- A `ParsedMail` with every optional field absent, used to build concrete
instances of the verified properties. -/
def emptyParsed : ParsedMail :=
  { messageId := none, subject := none, fromAddr := none, toField := none,
    cc := none, bcc := none, replyTo := none, date := none, text := none,
    html := none, attachments := none, headers := [], inReplyTo := none,
    references := none }

/-! ## Helper lemmas -/

/-- When every fetched message carries its UID and parses, the batch loop
returns one parsed message per selected UID, in order, and logs nothing. -/
theorem processMessages_all_good (pm : Nat → ParsedMail)
    (flagsOf : Nat → List String) (fetch : Nat → RawMsg)
    (hfetch : ∀ u, fetch u = ⟨some u, flagsOf u, some (pm u)⟩) :
    ∀ uids : List Nat,
      processMessages (uids.map fetch)
        = (uids.map (fun u => parseEmail (pm u) u (flagsOf u)), []) := by
  intro uids
  induction uids with
  | nil => rfl
  | cons u us ih => simp [processMessages, hfetch u, ih]

/-- When exactly the UID `u` fails to parse, the batch loop drops every
occurrence of `u`, logs it, and keeps all other messages in order. -/
theorem processMessages_one_bad (pm : Nat → ParsedMail)
    (flagsOf : Nat → List String) (fetch : Nat → RawMsg) (u : Nat)
    (hgood : ∀ v, v ≠ u → fetch v = ⟨some v, flagsOf v, some (pm v)⟩)
    (hbad : fetch u = ⟨some u, flagsOf u, none⟩) :
    ∀ uids : List Nat,
      processMessages (uids.map fetch)
        = ((uids.filter (fun v => v ≠ u)).map
             (fun v => parseEmail (pm v) v (flagsOf v)),
           uids.filter (fun v => v = u)) := by
  intro uids
  induction uids with
  | nil => rfl
  | cons w ws ih =>
    by_cases hw : w = u
    · subst hw
      simp [processMessages, hbad, ih]
    · simp [processMessages, hgood w hw, ih, hw]

/-- Every message the batch loop emits has `unread` derived from its own
flags. -/
theorem processMessages_mem_unread (msgs : List RawMsg) (m : EmailMessage)
    (h : m ∈ (processMessages msgs).1) :
    m.unread = !(m.flags.contains "\\Seen") := by
  induction msgs with
  | nil => simp [processMessages] at h
  | cons r rs ih =>
    unfold processMessages at h
    cases hr : r.uid with
    | none =>
      rw [hr] at h
      exact ih h
    | some u =>
      rw [hr] at h
      cases hp : r.parsed with
      | none =>
        rw [hp] at h
        exact ih h
      | some pm =>
        rw [hp] at h
        simp only [List.mem_cons] at h
        rcases h with h | h
        · subst h
          simp [parseEmail]
        · exact ih h

/-- A string that the code has just prefixed with the reply marker starts
with the marker. -/
theorem strStartsWith_re_append (s : String) :
    strStartsWith ("Re: " ++ s) "Re:" = true := by
  unfold strStartsWith
  have h : ("Re: " ++ s).toList = 'R' :: 'e' :: ':' :: ' ' :: s.toList := by
    show ("Re: " ++ s).data = _
    rw [String.data_append]
    rfl
  rw [h]
  rfl

/-- `filter(Boolean)` over wrapped non-empty strings plus a present
non-empty identifier is the identity on the underlying list. -/
theorem jsFilterBoolean_nonempty (refs : List String) (mid : String)
    (hrefs : ∀ r ∈ refs, r ≠ "") (hmid : mid ≠ "") :
    jsFilterBoolean (refs.map some ++ [some mid]) = refs ++ [mid] := by
  induction refs with
  | nil => simp [jsFilterBoolean, hmid]
  | cons r rs ih =>
    have hr : r ≠ "" := hrefs r (by simp)
    have ih2 := ih (fun x hx => hrefs x (by simp [hx]))
    simp only [List.map_cons, List.cons_append, jsFilterBoolean,
      List.filterMap_cons] at ih2 ⊢
    rw [if_neg hr]
    rw [ih2]

/-- The registration loop distributes over list concatenation: entries are
processed independently. -/
theorem registerTimes_append (xs ys : List String) :
    registerTimes (xs ++ ys)
      = ((registerTimes xs).1 ++ (registerTimes ys).1,
         (registerTimes xs).2 ++ (registerTimes ys).2) := by
  induction xs with
  | nil => simp [registerTimes]
  | cons t ts ih =>
    cases h : timeToCronExpression (jsTrim t) <;>
      simp [registerTimes, h, ih]

/-! ## Verified claims -/

/-- Claim C1: when every fetch and parse succeeds, `listEmails` with limit
`L` and offset `O` over a search result of size `N` returns exactly
`min L (N - O)` messages (truncated subtraction realises `max(0, N-O)`),
namely those at positions `O` through `O+L-1` of the reversed match order,
and the empty sequence when there are no matches. -/
theorem C1_listEmails_window (results : List Nat) (offset limit : Nat)
    (fetch : Nat → RawMsg) (pm : Nat → ParsedMail) (flagsOf : Nat → List String)
    (hfetch : ∀ u, fetch u = ⟨some u, flagsOf u, some (pm u)⟩) :
    (listEmails results offset limit fetch).1
        = ((results.reverse.drop offset).take limit).map
            (fun u => parseEmail (pm u) u (flagsOf u))
    ∧ (listEmails results offset limit fetch).1.length
        = min limit (results.length - offset)
    ∧ (results = [] → (listEmails results offset limit fetch).1 = []) := by
  have hwin : jsSlice results.reverse offset (offset + limit)
      = (results.reverse.drop offset).take limit := by
    simp [jsSlice, Nat.add_sub_cancel_left]
  have h1 : (listEmails results offset limit fetch).1
      = ((results.reverse.drop offset).take limit).map
          (fun u => parseEmail (pm u) u (flagsOf u)) := by
    unfold listEmails
    by_cases h0 : results.length = 0
    · have : results = [] := List.length_eq_zero.mp h0
      subst this
      simp
    · rw [if_neg h0, hwin]
      by_cases hu : ((results.reverse.drop offset).take limit).length = 0
      · rw [if_pos hu]
        have : (results.reverse.drop offset).take limit = [] :=
          List.length_eq_zero.mp hu
        simp [this]
      · rw [if_neg hu, processMessages_all_good pm flagsOf fetch hfetch]
  refine ⟨h1, ?_, ?_⟩
  · rw [h1]
    simp [List.length_take, List.length_drop, List.length_reverse]
  · intro h
    subst h
    simp [h1]

/-- Concrete instance of C1: three matches, offset 1, limit 1 select the
middle element of the reversed order. -/
theorem C1_witness :
    (listEmails [10, 20, 30] 1 1
        (fun u => ⟨some u, [], some emptyParsed⟩)).1
      = [parseEmail emptyParsed 20 []]
    ∧ (listEmails [10, 20, 30] 1 1
        (fun u => ⟨some u, [], some emptyParsed⟩)).1.length = 1 :=
  ⟨(C1_listEmails_window [10, 20, 30] 1 1 _ (fun _ => emptyParsed) (fun _ => [])
      (fun _ => rfl)).1,
   (C1_listEmails_window [10, 20, 30] 1 1 _ (fun _ => emptyParsed) (fun _ => [])
      (fun _ => rfl)).2.1⟩

/-- Claim C2 (counterexample): with caller subject `"Meeting"` and original
subject `"Re: Meeting"`, `replyEmail` returns the caller's subject
unchanged even though the caller's subject does not start with `"Re:"`,
and no `"Re: "` is prefixed — contradicting the claim that the
caller-supplied subject is returned unchanged only when it itself starts
with `"Re:"` and that otherwise a prefix is always added. -/
theorem C2_counterexample_check :
    replySubjectCalc "Meeting" (some "Re: Meeting") = "Meeting"
    ∧ strStartsWith "Meeting" "Re:" = false
    ∧ replySubjectCalc "Meeting" (some "Re: Meeting") ≠ "Re: Meeting" := by
  refine ⟨by decide, by decide, by decide⟩

/-- Claim C2 (amended): the check is a disjunction over both strings — the
caller-supplied subject is returned unchanged exactly when the caller's
subject or the original's subject starts with `"Re:"`; in particular a
caller subject lacking the marker is still returned unchanged whenever the
original's subject carries it. -/
theorem C2_amended_subject_check (caller : String) (osubj : Option String) :
    (strStartsWith caller "Re:" = true ∨ optStartsRe osubj = true →
        replySubjectCalc caller osubj = caller)
    ∧ (strStartsWith caller "Re:" = false → optStartsRe osubj = true →
        replySubjectCalc caller osubj = caller)
    ∧ (replySubjectCalc caller osubj = caller →
        strStartsWith caller "Re:" = true ∨ optStartsRe osubj = true) := by
  refine ⟨?_, ?_, ?_⟩
  · intro h
    rcases h with h | h <;> simp [replySubjectCalc, h]
  · intro h1 h2
    simp [replySubjectCalc, h2]
  · intro heq
    by_cases hc : strStartsWith caller "Re:" = true
    · exact Or.inl hc
    · by_cases ho : optStartsRe osubj = true
      · exact Or.inr ho
      · exfalso
        rw [Bool.not_eq_true] at hc ho
        unfold replySubjectCalc at heq
        rw [hc, ho] at heq
        simp at heq
        apply Bool.false_ne_true
        rw [← hc, ← heq]
        exact strStartsWith_re_append _

/-- Concrete instances of the amended C2: a caller subject with the marker
is kept; a caller subject without the marker is also kept when the
original's subject carries it. -/
theorem C2_witness :
    replySubjectCalc "Re: Meeting" (some "Meeting") = "Re: Meeting"
    ∧ replySubjectCalc "Meeting" (some "Re: Meeting") = "Meeting"
    ∧ (strStartsWith "Meeting" "Re:" = true
        ∨ optStartsRe (some "Re: Meeting") = true) :=
  ⟨(C2_amended_subject_check "Re: Meeting" (some "Meeting")).1 (Or.inl (by decide)),
   (C2_amended_subject_check "Meeting" (some "Re: Meeting")).2.1
      (by decide) (by decide),
   (C2_amended_subject_check "Meeting" (some "Re: Meeting")).2.2 (by decide)⟩

/-- Claim C3 (counterexample): with an original references list containing
an empty entry, `filter(Boolean)` drops it, so the reply's references
header is not the space-join of the list with the identifier appended
(which would be `" <b>"`). -/
theorem C3_counterexample_check :
    replyReferencesCalc (some [""]) (some "<b>") = some "<b>"
    ∧ String.intercalate " " ([""] ++ ["<b>"]) = " <b>"
    ∧ (" <b>" : String) ≠ "<b>" := by
  refine ⟨by decide, by decide, by decide⟩

/-- Claim C3 (amended): when the original's references entries are
non-empty and its message identifier is present and non-empty, a reply's
references header equals the original's references list with the
identifier appended, space-joined; without a references list it is the
identifier alone. -/
theorem C3_references_append (refs : List String) (mid : String)
    (hrefs : ∀ r ∈ refs, r ≠ "") (hmid : mid ≠ "") :
    replyReferencesCalc (some refs) (some mid)
      = some (String.intercalate " " (refs ++ [mid]))
    ∧ replyReferencesCalc none (some mid) = some mid := by
  constructor
  · show some (String.intercalate " " (jsFilterBoolean (refs.map some ++ [some mid])))
        = some (String.intercalate " " (refs ++ [mid]))
    rw [jsFilterBoolean_nonempty refs mid hrefs hmid]
  · rfl

/-- Concrete instance of the amended C3: references `["<a>"]` and
identifier `"<b>"` give `"<a> <b>"`. -/
theorem C3_witness :
    replyReferencesCalc (some ["<a>"]) (some "<b>") = some "<a> <b>"
    ∧ replyReferencesCalc none (some "<b>") = some "<b>" :=
  ⟨(C3_references_append ["<a>"] "<b>" (by decide) (by decide)).1,
   (C3_references_append ["<a>"] "<b>" (by decide) (by decide)).2⟩

/-- Claim C4: the retry wrapper (3 attempts) absorbs RateLimit failures
with exponential backoff (`delay * 2 ^ attempt`, i.e. `delay` then
`delay * 2` before the third attempt), rethrows a recognized non-retryable
error at once after a single attempt, retries an unrecognized error with
linear backoff (`delay * (attempt + 1)`), and rethrows the last error when
attempts are exhausted. -/
theorem C4_withRetry_policy (delay v : Nat) :
    (∀ fn : Nat → Except JsError Nat,
      fn 0 = Except.error JsError.rateLimitError →
      fn 1 = Except.error JsError.rateLimitError →
      fn 2 = Except.ok v →
      withRetry fn 3 delay = (Except.ok v, [delay, delay * 2], 3))
    ∧ (∀ fn : Nat → Except JsError Nat, ∀ msg code : String,
      fn 0 = Except.error (JsError.gmailError msg code false) →
      withRetry fn 3 delay
        = (Except.error (JsError.gmailError msg code false), [], 1))
    ∧ (∀ fn : Nat → Except JsError Nat,
      fn 0 = Except.error JsError.jsThrown →
      fn 1 = Except.ok v →
      withRetry fn 3 delay = (Except.ok v, [delay], 2))
    ∧ (∀ fn : Nat → Except JsError Nat,
      (∀ i, i < 3 → fn i = Except.error JsError.rateLimitError) →
      withRetry fn 3 delay
        = (Except.error JsError.rateLimitError, [delay, delay * 2], 3)) := by
  refine ⟨?_, ?_, ?_, ?_⟩
  · intro fn h0 h1 h2
    simp [withRetry, withRetryGo, h0, h1, h2, isRateLimitInstance,
      isGmailMCPInstance, jsRetryable, Nat.mul_comm]
  · intro fn msg code h0
    simp [withRetry, withRetryGo, h0, isRateLimitInstance,
      isGmailMCPInstance, jsRetryable]
  · intro fn h0 h1
    simp [withRetry, withRetryGo, h0, h1, isRateLimitInstance,
      isGmailMCPInstance, jsRetryable]
  · intro fn hall
    simp [withRetry, withRetryGo, hall 0 (by decide), hall 1 (by decide),
      hall 2 (by decide), isRateLimitInstance, isGmailMCPInstance,
      jsRetryable, Nat.mul_comm]

/-- Concrete instances of C4 with the default base delay 1000: two rate
limits then success; an immediate non-retryable rethrow; one unrecognized
failure retried linearly; exhaustion after three rate limits. -/
theorem C4_witness :
    withRetry (fun n => if n < 2 then Except.error JsError.rateLimitError
        else Except.ok 7) 3 1000
      = (Except.ok 7, [1000, 2000], 3)
    ∧ withRetry (fun _ : Nat =>
          (Except.error (JsError.gmailError "boom" "SMTP_ERROR" false) :
            Except JsError Nat)) 3 1000
      = (Except.error (JsError.gmailError "boom" "SMTP_ERROR" false), [], 1)
    ∧ withRetry (fun n => if n = 0 then Except.error JsError.jsThrown
        else Except.ok 7) 3 1000
      = (Except.ok 7, [1000], 2)
    ∧ withRetry (fun _ : Nat =>
          (Except.error JsError.rateLimitError : Except JsError Nat)) 3 1000
      = (Except.error JsError.rateLimitError, [1000, 2000], 3) :=
  ⟨(C4_withRetry_policy 1000 7).1 _ rfl rfl rfl,
   (C4_withRetry_policy 1000 7).2.1 _ "boom" "SMTP_ERROR" rfl,
   (C4_withRetry_policy 1000 7).2.2.1 _ rfl rfl,
   (C4_withRetry_policy 1000 7).2.2.2 _ (fun _ _ => rfl)⟩

/-- Claim C5: `sendEmail` with neither a plain-text nor an HTML body (or a
missing recipient or subject) fails with the validation error before the
submission step: the submission oracle is invoked zero times and no retry
sleep happens. -/
theorem C5_sendEmail_validation (user : String) (opts : SendOpts)
    (submit : MailOptions → Nat → Except JsError String)
    (h : (jsTruthyOptStr opts.body = false ∧ jsTruthyOptStr opts.htmlBody = false)
        ∨ jsTruthyStrOrList opts.toField = false ∨ opts.subject = "") :
    sendEmail user opts submit
      = (Except.error (JsError.gmailError
          "to, subject, and body (or htmlBody) are required" "VALIDATION_ERROR" false),
        [], 0) := by
  unfold sendEmail
  rcases h with ⟨hb, hh⟩ | h | h <;> simp [*]

/-- Concrete instance of C5: recipient and subject present but no body
variant; the submission oracle would succeed yet is never consulted. -/
theorem C5_witness :
    sendEmail "me@example.com"
      { toField := StrOrList.str "a@b.com", subject := "Hi", body := none,
        htmlBody := none, cc := none, bcc := none, replyTo := none,
        attachments := none, inReplyTo := none, references := none }
      (fun _ _ => Except.ok "id")
      = (Except.error (JsError.gmailError
          "to, subject, and body (or htmlBody) are required" "VALIDATION_ERROR" false),
        [], 0) :=
  C5_sendEmail_validation _ _ _ (Or.inl ⟨rfl, rfl⟩)

/-- Claim C6: during a `listEmails` batch, a per-message failure (the
message's `simpleParser` outcome is an error) is logged and only that
message is dropped; the call never fails and still returns every
successfully parsed message, in order. -/
theorem C6_listEmails_partial_failure (results : List Nat) (offset limit : Nat)
    (fetch : Nat → RawMsg) (u : Nat) (pm : Nat → ParsedMail)
    (flagsOf : Nat → List String)
    (hgood : ∀ v, v ≠ u → fetch v = ⟨some v, flagsOf v, some (pm v)⟩)
    (hbad : fetch u = ⟨some u, flagsOf u, none⟩) :
    (listEmails results offset limit fetch).1
      = ((jsSlice results.reverse offset (offset + limit)).filter
            (fun v => v ≠ u)).map (fun v => parseEmail (pm v) v (flagsOf v))
    ∧ (listEmails results offset limit fetch).2
      = (jsSlice results.reverse offset (offset + limit)).filter (fun v => v = u) := by
  unfold listEmails
  by_cases h0 : results.length = 0
  · have : results = [] := List.length_eq_zero.mp h0
    subst this
    simp [jsSlice]
  · rw [if_neg h0]
    by_cases hu : (jsSlice results.reverse offset (offset + limit)).length = 0
    · have : jsSlice results.reverse offset (offset + limit) = [] :=
        List.length_eq_zero.mp hu
      rw [this]
      simp
    · rw [if_neg hu, processMessages_one_bad pm flagsOf fetch u hgood hbad]
      exact ⟨rfl, rfl⟩

/-- Concrete instance of C6: UID 2 fails to parse; UIDs 3 and 1 are still
returned and 2 is logged. -/
theorem C6_witness :
    (listEmails [1, 2, 3] 0 10
        (fun v => if v = 2 then ⟨some v, [], none⟩
          else ⟨some v, [], some emptyParsed⟩)).1
      = [parseEmail emptyParsed 3 [], parseEmail emptyParsed 1 []]
    ∧ (listEmails [1, 2, 3] 0 10
        (fun v => if v = 2 then ⟨some v, [], none⟩
          else ⟨some v, [], some emptyParsed⟩)).2 = [2] :=
  ⟨(C6_listEmails_partial_failure [1, 2, 3] 0 10 _ 2 (fun _ => emptyParsed)
      (fun _ => []) (fun _ hv => if_neg hv) rfl).1,
   (C6_listEmails_partial_failure [1, 2, 3] 0 10 _ 2 (fun _ => emptyParsed)
      (fun _ => []) (fun _ hv => if_neg hv) rfl).2⟩

/-- Claim C7: a schedule entry whose hour or minute is out of range fails
registration with the descriptive error and is skipped, while every other
entry in the same configuration is registered exactly as it would be on
its own — one entry's failure never affects the others. -/
theorem C7_scheduler_entry_isolation (pre post : List String) (bad msg : String)
    (hbad : timeToCronExpression (jsTrim bad) = Except.error msg) :
    setupScheduler true (pre ++ bad :: post)
      = ((registerTimes pre).1 ++ (registerTimes post).1,
         (registerTimes pre).2 ++ (bad, msg) :: (registerTimes post).2) := by
  unfold setupScheduler
  rw [if_neg (by simp), if_neg (by simp)]
  rw [registerTimes_append]
  simp [registerTimes, hbad]

/-- Concrete instance of C7: `"25:00"` fails with the descriptive message
while the sibling entries `"15:00"` and `"19:00"` still register. -/
theorem C7_witness :
    setupScheduler true ["15:00", "25:00", "19:00"]
      = (["0 15 * * *", "0 19 * * *"],
         [("25:00", "Invalid time format: 25:00. Expected format: HH:mm")]) :=
  C7_scheduler_entry_isolation ["15:00"] ["19:00"] "25:00" _ rfl

/-- Claim C8: every message produced by `listEmails`, `searchEmails` or
`getEmail` has `unread` equal to the negation of the presence of the
`"\\Seen"` marker in that message's own `flags` — it is derived, never an
independent field. -/
theorem C8_unread_derived (results : List Nat) (offset limit lim2 uid : Nat)
    (fetch : Nat → RawMsg) (raw : RawMsg) (m : EmailMessage) :
    (m ∈ (listEmails results offset limit fetch).1 →
        m.unread = !(m.flags.contains "\\Seen"))
    ∧ (m ∈ (searchEmails results lim2 fetch).1 →
        m.unread = !(m.flags.contains "\\Seen"))
    ∧ (getEmail uid raw = Except.ok m →
        m.unread = !(m.flags.contains "\\Seen")) := by
  have hl : ∀ (res : List Nat) (off lim : Nat),
      m ∈ (listEmails res off lim fetch).1 →
        m.unread = !(m.flags.contains "\\Seen") := by
    intro res off lim h
    unfold listEmails at h
    by_cases h0 : res.length = 0
    · rw [if_pos h0] at h
      simp at h
    · rw [if_neg h0] at h
      by_cases hu : (jsSlice res.reverse off (off + lim)).length = 0
      · rw [if_pos hu] at h
        simp at h
      · rw [if_neg hu] at h
        exact processMessages_mem_unread _ m h
  refine ⟨hl results offset limit, hl results 0 lim2, ?_⟩
  intro h
  unfold getEmail at h
  cases hp : raw.parsed with
  | none => rw [hp] at h; exact absurd h (by simp)
  | some pm =>
    rw [hp] at h
    have : parseEmail pm uid raw.flags = m := by
      injection h
    subst this
    simp [parseEmail]

/-- Concrete instances of C8 across the three read operations: a message
without the seen marker is unread, one carrying it is not. -/
theorem C8_witness :
    (parseEmail emptyParsed 5 []).unread
      = !((parseEmail emptyParsed 5 []).flags.contains "\\Seen")
    ∧ (parseEmail emptyParsed 5 []).unread = true
    ∧ (parseEmail emptyParsed 7 ["\\Seen"]).unread
      = !((parseEmail emptyParsed 7 ["\\Seen"]).flags.contains "\\Seen") :=
  ⟨(C8_unread_derived [5] 0 1 1 7 (fun u => ⟨some u, [], some emptyParsed⟩)
      ⟨some 7, ["\\Seen"], some emptyParsed⟩ (parseEmail emptyParsed 5 [])).1
      (by decide),
   by
     have := (C8_unread_derived [5] 0 1 1 7
        (fun u => ⟨some u, [], some emptyParsed⟩)
        ⟨some 7, ["\\Seen"], some emptyParsed⟩ (parseEmail emptyParsed 5 [])).2.1
        (by decide)
     simpa using this,
   (C8_unread_derived [5] 0 1 1 7 (fun u => ⟨some u, [], some emptyParsed⟩)
      ⟨some 7, ["\\Seen"], some emptyParsed⟩
      (parseEmail emptyParsed 7 ["\\Seen"])).2.2 rfl⟩

/-- Claim C9: when the reply marker is applied (neither subject carries
it), the resulting subject is `"Re: "` followed by the original's subject,
independent of the caller's subject; the caller's subject follows the
marker only when the original has no subject (an empty original subject is
falsy in JS and behaves like an absent one). -/
theorem C9_reply_subject_prefers_original (caller : String) (osubj : Option String)
    (h1 : strStartsWith caller "Re:" = false)
    (h2 : optStartsRe osubj = false) :
    (∀ s, osubj = some s → s ≠ "" →
        replySubjectCalc caller osubj = "Re: " ++ s)
    ∧ (∀ caller2 : String, ∀ s, osubj = some s → s ≠ "" →
        replySubjectCalc caller osubj = replySubjectCalc caller2 osubj
        ∨ strStartsWith caller2 "Re:" = true)
    ∧ (osubj = none ∨ osubj = some "" →
        replySubjectCalc caller osubj = "Re: " ++ caller) := by
  have hmain : ∀ s, osubj = some s → s ≠ "" →
      replySubjectCalc caller osubj = "Re: " ++ s := by
    intro s hs hne
    subst hs
    simp [replySubjectCalc, h1, h2, jsOrD, hne]
  refine ⟨hmain, ?_, ?_⟩
  · intro caller2 s hs hne
    by_cases hc2 : strStartsWith caller2 "Re:" = true
    · exact Or.inr hc2
    · left
      rw [Bool.not_eq_true] at hc2
      rw [hmain s hs hne]
      subst hs
      simp [replySubjectCalc, hc2, h2, jsOrD, hne]
  · intro h
    rcases h with h | h <;> subst h <;>
      simp [replySubjectCalc, h1, h2, jsOrD]

/-- Concrete instances of C9: the caller subject `"Hello"` is discarded in
favour of the original subject `"Meeting"`, and used only when the
original has none. -/
theorem C9_witness :
    replySubjectCalc "Hello" (some "Meeting") = "Re: " ++ "Meeting"
    ∧ (replySubjectCalc "Hello" (some "Meeting")
        = replySubjectCalc "Howdy" (some "Meeting")
        ∨ strStartsWith "Howdy" "Re:" = true)
    ∧ replySubjectCalc "Hello" none = "Re: " ++ "Hello" :=
  ⟨(C9_reply_subject_prefers_original "Hello" (some "Meeting")
      (by decide) (by decide)).1 "Meeting" rfl (by decide),
   (C9_reply_subject_prefers_original "Hello" (some "Meeting")
      (by decide) (by decide)).2.1 "Howdy" "Meeting" rfl (by decide),
   (C9_reply_subject_prefers_original "Hello" none
      (by decide) (by decide)).2.2 (Or.inl rfl)⟩

/-- Claim C10: replying to an original message without a sender address
sets the destination to the empty string, so `sendEmail`'s recipient
validation rejects the reply: it fails with the validation error and the
submission oracle is never invoked. -/
theorem C10_reply_missing_sender (user replySubject : String)
    (body htmlBody : Option String) (cc bcc : Option StrOrList)
    (orig : OriginalEmail) (submit : MailOptions → Nat → Except JsError String)
    (hbody : jsTruthyOptStr body = true ∨ jsTruthyOptStr htmlBody = true)
    (hfrom : orig.fromAddr = none) :
    replyEmail user replySubject body htmlBody cc bcc orig submit
      = (Except.error (JsError.gmailError
          "to, subject, and body (or htmlBody) are required" "VALIDATION_ERROR" false),
        [], 0) := by
  unfold replyEmail
  have hcond : (!jsTruthyOptStr body && !jsTruthyOptStr htmlBody) = false := by
    rcases hbody with h | h <;> simp [h]
  rw [hcond]
  simp only [Bool.false_eq_true, if_false]
  unfold sendEmail
  simp [hfrom, jsOrD, jsTruthyStrOrList]

/-- Concrete instance of C10: a reply with a body to an original without a
sender fails with the `sendEmail` validation error and zero submissions. -/
theorem C10_witness :
    replyEmail "me@example.com" "Meeting" (some "hello") none none none
      ⟨none, some "Meeting", some "<b>", none⟩ (fun _ _ => Except.ok "id")
      = (Except.error (JsError.gmailError
          "to, subject, and body (or htmlBody) are required" "VALIDATION_ERROR" false),
        [], 0) :=
  C10_reply_missing_sender "me@example.com" "Meeting" (some "hello") none none none
    ⟨none, some "Meeting", some "<b>", none⟩ (fun _ _ => Except.ok "id")
    (Or.inl (by decide)) rfl
